import Mathlib

/-!
Verification of the File Integrity Checker core.

A shallow embedding of `src/file_integrity_checker.py` (class
`FileIntegrityChecker`): the tracked-record data model, the digest engine
(`calculate_hash`), registration (`add_file`), evaluation (`check_file`),
persistence (`_load_database` / `_save_database`) and report aggregation
(`generate_report`).

Python dictionaries are embedded as association lists (`List (String × _)`)
with first-match lookup and in-place value replacement, matching CPython's
insertion-ordered dict semantics.  The filesystem, the wall clock and the
possibility of an I/O failure on save are an explicit environment value.
The cryptographic hash functions of `hashlib` are abstract parameters
(algorithm name, file bytes → hex digest).  The digest engine is embedded
twice, at two fidelities: a simplified engine restricted to the
guaranteed fixed-digest algorithm names, used by the evaluation and
registration claims, and a full platform model (`HashLib`,
`calculate_hash_plat`) in which the accepted-name set is an abstract
platform-dependent superset of `hashlib.algorithms_guaranteed` and the
uncaught `TypeError` on the variable-length `shake_` names is an explicit
outcome; the two agree wherever the simplified one is used.  Loading the
persisted store is likewise modelled at byte level, separating the codec
failure the source does not catch from the JSON-grammar failure it
does. -/

/-- One value of the `self.database` dict: the baseline metadata stored by
`add_file` (lines 108–115 of the source).  `size` and `mtime` are the
`os.stat` numbers; timestamps are the ISO strings produced by
`datetime.now().isoformat()`. -/
structure TrackedRecord where
  hash : String
  algorithm : String
  size : Int
  mtime : Int
  added_time : String
  last_check : String
deriving Repr, DecidableEq

/-- The in-memory database: a Python dict from file path to record,
embedded as an insertion-ordered association list. -/
abbrev DB := List (String × TrackedRecord)

/-- Python `d[k]` / `k in d`: first-match association-list lookup. -/
def dbLookup (db : DB) (k : String) : Option TrackedRecord :=
  match db with
  | [] => none
  | (k', r) :: rest => if k' = k then some r else dbLookup rest k

/-- Python `d[k] = v`: replace the value in place when the key is present,
append otherwise (CPython dict assignment keeps the key's position). -/
def dbInsert (db : DB) (k : String) (r : TrackedRecord) : DB :=
  match db with
  | [] => [(k, r)]
  | (k', r') :: rest =>
      if k' = k then (k, r) :: rest else (k', r') :: dbInsert rest k r

/-- `self.database[file_path]['last_check'] = ...` (source line 156):
mutate one field of one record in place, all other keys untouched. -/
def dbSetLastCheck (db : DB) (k : String) (t : String) : DB :=
  db.map (fun kv => if kv.1 = k then (kv.1, { kv.2 with last_check := t }) else kv)

/-- A file visible to `os.path.exists` / `os.stat` / `open`.  `content` is
the byte sequence `open(path, 'rb')` streams; `readable = false` models a
file that exists but whose read raises `IOError` (e.g. permissions). -/
structure FileInfo where
  content : List Nat
  size : Int
  mtime : Int
  readable : Bool
deriving Repr, DecidableEq

/-- The environment of one operation: the filesystem (absent path =
`os.path.exists` is false), the current `datetime.now().isoformat()`
string, and whether the next `open(database_file, 'w')` raises `IOError`. -/
structure Env where
  fs : List (String × FileInfo)
  now : String
  saveFails : Bool
deriving Repr, DecidableEq

/-- `os.path.exists` / `open` / `os.stat` on the modelled filesystem. -/
def fsLookup (fs : List (String × FileInfo)) (p : String) : Option FileInfo :=
  match fs with
  | [] => none
  | (p', fi) :: rest => if p' = p then some fi else fsLookup rest p

/-- Mutable state of a `FileIntegrityChecker` plus the persisted store:
`database` is `self.database`, `disk` is the content of
`self.database_file` (as the database value it deserializes to). -/
structure SysState where
  database : DB
  disk : DB
deriving Repr, DecidableEq

/-- The fixed-length-digest algorithms of `hashlib.algorithms_guaranteed`
(the Python library documentation's platform-independent set, without the
two variable-length `shake_` names): exactly the algorithm names on which
`calculate_hash` is guaranteed, on every platform, to run to a normal
return with a digest when the file is readable.  This is the domain on
which the simplified digest engine below coincides with the full platform
model `calculate_hash_plat`; it is deliberately not a model of the whole
platform-dependent set `hashlib.new` accepts. -/
def hashlibAlgorithms : List String :=
  ["md5", "sha1", "sha224", "sha256", "sha384", "sha512",
   "sha3_224", "sha3_256", "sha3_384", "sha3_512",
   "blake2b", "blake2s"]

/-- `hashlib.algorithms_guaranteed` in full, `shake_128`/`shake_256`
included: the names `hashlib.new` accepts on every platform.  The set it
accepts on a given platform is a superset of this (OpenSSL may add e.g.
`sm3`, `ripemd160`, `md5-sha1`). -/
def hashlibGuaranteed : List String :=
  ["md5", "sha1", "sha224", "sha256", "sha384", "sha512",
   "sha3_224", "sha3_256", "sha3_384", "sha3_512",
   "shake_128", "shake_256", "blake2b", "blake2s"]

/-- The four algorithm names the spec enumerates (the CLI's `--algorithm`
choices, source line 333). -/
def enumeratedAlgorithms : List String := ["md5", "sha1", "sha256", "sha512"]

/-- Python's `str.lower()` on an algorithm name (characterwise ASCII-style
lowercasing). -/
def strLower (s : String) : String := String.mk (s.data.map Char.toLower)

/-- `calculate_hash` (source lines 62–85), simplified digest engine:
lowercase the algorithm name, `hashlib.new` it (`ValueError` if
unsupported), stream the file's bytes into it (`IOError` if the file is
absent or unreadable), return the hex digest; both caught exception kinds
become `None`.  This simplification restricts `hashlib.new`'s acceptance
to the guaranteed fixed-digest names, so it agrees with the full platform
model `calculate_hash_plat` on those names and on the genuine caught-error
paths (absent/unreadable file, names no platform accepts); the evaluation
and registration claims below use it only in those regions.  The failure
boundary of the digest engine itself — platform-extra accepted names, and
the uncaught `TypeError` a `shake_` name provokes — is settled against
`calculate_hash_plat`. -/
def calculate_hash (hashFn : String → List Nat → String) (env : Env)
    (file_path : String) (algorithm : String) : Option String :=
  let alg := strLower algorithm
  if alg ∈ hashlibAlgorithms then
    match fsLookup env.fs file_path with
    | none => none
    | some fi => if fi.readable then some (hashFn alg fi.content) else none
  else none

/-- One platform's `hashlib`: which names `hashlib.new` accepts (on every
platform a superset of `hashlibGuaranteed`), which of them have a
parameterless `hexdigest()` (all but the `shake_` family), and the digest
function itself. -/
structure HashLib where
  accepted : String → Bool
  fixedDigest : String → Bool
  fn : String → List Nat → String

/-- `calculate_hash` (source lines 62–85), full platform model, keeping
the source's exception structure: `hashlib.new(algorithm.lower())` raises
`ValueError` on a name the platform does not accept (caught → `None`);
opening or reading the file raises `IOError` (caught → `None`);
`hash_obj.hexdigest()` raises `TypeError` on a variable-length algorithm
(`shake_128`/`shake_256`), which the `except (IOError, ValueError)`
clause does not catch, so the call raises — modelled as
`Except.error ()`. -/
def calculate_hash_plat (lib : HashLib) (env : Env)
    (file_path : String) (algorithm : String) : Except Unit (Option String) :=
  let alg := strLower algorithm
  if lib.accepted alg then
    match fsLookup env.fs file_path with
    | none => .ok none
    | some fi =>
        if fi.readable then
          if lib.fixedDigest alg then .ok (some (lib.fn alg fi.content))
          else .error ()
        else .ok none
  else .ok none

/-- `add_file` (source lines 87–119): `False` if the path does not exist or
the digest fails; otherwise store the baseline record under the path,
persist, and return `True`.  Returns the Python return value and the
updated state. -/
def add_file (hashFn : String → List Nat → String) (env : Env)
    (s : SysState) (file_path : String) (algorithm : String) : Bool × SysState :=
  match fsLookup env.fs file_path with
  | none => (false, s)
  | some fi =>
      match calculate_hash hashFn env file_path algorithm with
      | none => (false, s)
      | some file_hash =>
          let rec_ : TrackedRecord :=
            { hash := file_hash, algorithm := algorithm, size := fi.size,
              mtime := fi.mtime, added_time := env.now, last_check := env.now }
          let db' := dbInsert s.database file_path rec_
          let disk' := if env.saveFails then s.disk else db'
          (true, { database := db', disk := disk' })

/-- The dict `check_file` returns, one constructor per `return` statement
(source lines 131–176), carrying exactly the fields the dict carries. -/
inductive CheckResult where
  | not_monitored (message : String)
  | missing (message : String) (original_hash : String)
  | error (message : String)
  | unchanged (message : String) (hash : String) (algorithm : String)
  | modified (message : String) (original_hash : String) (current_hash : String)
      (algorithm : String) (size_change : Int) (mtime_change : Int)
deriving Repr, DecidableEq

/-- The `'status'` value of each result dict. -/
def CheckResult.status : CheckResult → String
  | .not_monitored _ => "not_monitored"
  | .missing _ _ => "missing"
  | .error _ => "error"
  | .unchanged _ _ _ => "unchanged"
  | .modified _ _ _ _ _ _ => "modified"

/-- `check_file` (source lines 121–176): classify a path against its stored
record.  The `last_check` update and the save happen only on the
`unchanged` / `modified` branches (after a successful digest), exactly as
in the source. -/
def check_file (hashFn : String → List Nat → String) (env : Env)
    (s : SysState) (file_path : String) : CheckResult × SysState :=
  match dbLookup s.database file_path with
  | none => (.not_monitored "File is not being monitored", s)
  | some stored =>
      match fsLookup env.fs file_path with
      | none => (.missing "File is missing" stored.hash, s)
      | some fi =>
          match calculate_hash hashFn env file_path stored.algorithm with
          | none => (.error "Could not calculate current hash", s)
          | some current_hash =>
              let db' := dbSetLastCheck s.database file_path env.now
              let disk' := if env.saveFails then s.disk else db'
              let s' : SysState := { database := db', disk := disk' }
              if current_hash = stored.hash then
                (.unchanged "File integrity verified" current_hash stored.algorithm, s')
              else
                (.modified "File has been modified" stored.hash current_hash
                   stored.algorithm (fi.size - stored.size) (fi.mtime - stored.mtime), s')

/-- JSON values at the level `json.dump` / `json.load` exchange them: the
database file is an object of objects whose leaves are strings and
numbers. -/
inductive Json where
  | str (s : String)
  | num (n : Int)
  | obj (fields : List (String × Json))

/-- The JSON object `json.dump` writes for one record (`_save_database`,
source line 58): the six keys of the dict built at lines 108–115, in
insertion order. -/
def encodeRecord (r : TrackedRecord) : Json :=
  .obj [("hash", .str r.hash), ("algorithm", .str r.algorithm),
        ("size", .num r.size), ("mtime", .num r.mtime),
        ("added_time", .str r.added_time), ("last_check", .str r.last_check)]

/-- Reading one record object back from the persisted JSON: `json.load`
returns the dict as-is, so a record round-trips exactly when the object
has the six keys with their leaf types. -/
def decodeRecord : Json → Option TrackedRecord
  | .obj [("hash", .str h), ("algorithm", .str a), ("size", .num sz),
          ("mtime", .num mt), ("added_time", .str ad), ("last_check", .str lc)] =>
      some { hash := h, algorithm := a, size := sz, mtime := mt,
             added_time := ad, last_check := lc }
  | _ => none

/-- `save`: the JSON document `_save_database` persists — the whole
database dict as one object. -/
def encodeDB (db : DB) : Json :=
  .obj (db.map (fun kv => (kv.1, encodeRecord kv.2)))

/-- `load` of a well-formed document: decode every entry of the top-level
object; `none` if any entry lacks the record shape. -/
def decodeDB : Json → Option DB
  | .obj fields =>
      fields.foldr
        (fun kv acc =>
          match decodeRecord kv.2, acc with
          | some r, some rest => some ((kv.1, r) :: rest)
          | _, _ => none)
        (some [])
  | _ => none

/-- `_load_database` (source lines 43–52), at byte level.  `disk = none`
models `os.path.exists` false (return `{}`).  Otherwise `open(f, 'r')` +
`json.load(f)` first decodes the raw bytes as text — `utf8Decode` models
the codec, `none` standing for `UnicodeDecodeError`, which is neither a
`JSONDecodeError` nor an `IOError` and therefore escapes the `except`
clause (modelled as `Except.error ()`) — and then parses the text as
JSON — `parseJson` models the grammar, `none` standing for the caught
`JSONDecodeError` (return `{}`).  A successfully parsed document is
returned exactly as `json.load` produced it, whatever its shape: the
result is the raw JSON value that becomes `self.database`, an object of
records only when the file happened to contain one. -/
def _load_database (utf8Decode : List Nat → Option String)
    (parseJson : String → Option Json) (disk : Option (List Nat)) : Except Unit Json :=
  match disk with
  | none => .ok (Json.obj [])
  | some bs =>
      match utf8Decode bs with
      | none => .error ()
      | some text =>
          match parseJson text with
          | none => .ok (Json.obj [])
          | some j => .ok j

/-- The report dict of `generate_report` (source lines 208–229):
`files` is the per-path result mapping, the four counters are the
`summary` sub-dict. -/
structure Report where
  timestamp : String
  total_files : Nat
  files : List (String × CheckResult)
  unchanged : Nat
  modified : Nat
  missing : Nat
  errors : Nat
deriving Repr, DecidableEq

/-- The keys of `report['summary']` (source lines 214–219).  Note the
plural `"errors"`, while `check_file` produces status `"error"`. -/
def summaryKeys : List String := ["unchanged", "modified", "missing", "errors"]

/-- `if result['status'] in report['summary']: report['summary'][result['status']] += 1`
(source lines 226–227): increment the summary counter named by the status,
when such a counter exists. -/
def bumpSummary (r : Report) (status : String) : Report :=
  if status ∈ summaryKeys then
    if status = "unchanged" then { r with unchanged := r.unchanged + 1 }
    else if status = "modified" then { r with modified := r.modified + 1 }
    else if status = "missing" then { r with missing := r.missing + 1 }
    else { r with errors := r.errors + 1 }
  else r

/-- `generate_report` (source lines 208–229): start with zero counters and
`total_files = len(self.database)`, then run `check_file` on every key of
the database (the key set is fixed before the loop; `check_file` only
rewrites values, never keys), recording each result and tallying. -/
def generate_report (hashFn : String → List Nat → String) (env : Env)
    (s : SysState) : Report × SysState :=
  let init : Report :=
    { timestamp := env.now, total_files := s.database.length, files := [],
      unchanged := 0, modified := 0, missing := 0, errors := 0 }
  (s.database.map Prod.fst).foldl
    (fun acc p =>
      let (result, st') := check_file hashFn env acc.2 p
      let rep := acc.1
      let rep := { rep with files := rep.files ++ [(p, result)] }
      (bumpSummary rep result.status, st'))
    (init, s)

/-! Concrete fixtures used by witnesses and counterexamples: a toy hash
function (any function of the right type instantiates the abstract
`hashFn` parameter), a two-byte readable file, an unreadable file, and the
matching baseline records. -/

/-- A sample digest function standing in for `hashlib`: algorithm name
plus the file bytes read as a base-256 number. -/
def sampleHash : String → List Nat → String :=
  fun a c => a ++ "-" ++ toString (c.foldl (fun acc b => acc * 256 + b) 0)

/-- A readable two-byte file (bytes of `"hi"`). -/
def sampleFi : FileInfo := { content := [104, 105], size := 2, mtime := 100, readable := true }

/-- An existing file whose read raises `IOError`. -/
def unreadableFi : FileInfo := { content := [1], size := 1, mtime := 50, readable := false }

/-- Baseline record for `sampleFi` at path `"a"`, digest taken with
`sampleHash` under `sha256`. -/
def sampleRec : TrackedRecord :=
  { hash := sampleHash "sha256" [104, 105], algorithm := "sha256", size := 2,
    mtime := 100, added_time := "t0", last_check := "t0" }

/-- Baseline record for the unreadable file at path `"b"`. -/
def unreadableRec : TrackedRecord :=
  { hash := "deadbeef", algorithm := "sha256", size := 1, mtime := 50,
    added_time := "t0", last_check := "t0" }

/-- Environment with the readable file at `"a"` and the unreadable one at
`"b"`; persistence works. -/
def sampleEnv : Env := { fs := [("a", sampleFi), ("b", unreadableFi)], now := "t1", saveFails := false }

/-- Same filesystem, but the save raises `IOError`. -/
def failEnv : Env := { fs := [("a", sampleFi), ("b", unreadableFi)], now := "t1", saveFails := true }

/-- State tracking only `"a"`, in memory and on disk. -/
def sampleState : SysState := { database := [("a", sampleRec)], disk := [("a", sampleRec)] }

/-- State tracking only the unreadable `"b"`. -/
def unreadableState : SysState := { database := [("b", unreadableRec)], disk := [("b", unreadableRec)] }

/-- Empty checker state. -/
def emptyState : SysState := { database := [], disk := [] }

/-- A minimal conforming platform `hashlib`: accepts exactly the
guaranteed names, with the `shake_` pair as the variable-length ones,
digesting with `sampleHash`.  Real platforms accept supersets; the
platform-parametric theorems quantify over them. -/
def minimalHashLib : HashLib :=
  { accepted := fun a => decide (a ∈ hashlibGuaranteed),
    fixedDigest := fun a => decide (a ∉ (["shake_128", "shake_256"] : List String)),
    fn := sampleHash }

/-- A codec standing in for UTF-8 decoding on the inputs the fixtures
use: ASCII byte lists decode to the corresponding text, and a byte ≥ 128
alone (such as `0xFF`, invalid as UTF-8) fails to decode. -/
def asciiDecode : List Nat → Option String :=
  fun bs =>
    if bs.all (fun b => b < 128) then some (String.mk (bs.map Char.ofNat)) else none

/-- A JSON parser standing in for `json.loads` on the fixture inputs: the
text `"5"` parses to the number 5 (a well-formed document that is not an
object), everything else fails to parse. -/
def sampleParse : String → Option Json :=
  fun t => if t = "5" then some (Json.num 5) else none

/-! Helper lemmas about the association-list dictionary operations. -/

/-- Unfolding `dbLookup` on a cons cell. -/
theorem dbLookup_cons (k : String) (v : TrackedRecord) (rest : DB) (q : String) :
    dbLookup ((k, v) :: rest) q = if k = q then some v else dbLookup rest q := rfl

/-- Unfolding `dbSetLastCheck` on a cons cell. -/
theorem dbSetLastCheck_cons (k : String) (v : TrackedRecord) (rest : DB) (p t : String) :
    dbSetLastCheck ((k, v) :: rest) p t =
      (if k = p then (k, { v with last_check := t }) else (k, v)) :: dbSetLastCheck rest p t := by
  by_cases hk : k = p
  · simp [dbSetLastCheck, hk]
  · simp [dbSetLastCheck, hk]

/-- After `dbSetLastCheck db p t`, the entry stored under `p` is the old
record with only `last_check` rewritten. -/
theorem dbLookup_setLastCheck_same (db : DB) (p t : String) (r : TrackedRecord)
    (h : dbLookup db p = some r) :
    dbLookup (dbSetLastCheck db p t) p = some { r with last_check := t } := by
  induction db with
  | nil => simp [dbLookup] at h
  | cons kv rest ih =>
      obtain ⟨k, v⟩ := kv
      rw [dbLookup_cons] at h
      rw [dbSetLastCheck_cons]
      by_cases hk : k = p
      · rw [if_pos hk] at h
        rw [if_pos hk]
        injection h with h2
        subst h2
        rw [dbLookup_cons, if_pos hk]
      · rw [if_neg hk] at h
        rw [if_neg hk]
        rw [dbLookup_cons, if_neg hk]
        exact ih h

/-- `dbSetLastCheck db p t` leaves every key other than `p` untouched. -/
theorem dbLookup_setLastCheck_other (db : DB) (p q t : String) (hq : q ≠ p) :
    dbLookup (dbSetLastCheck db p t) q = dbLookup db q := by
  induction db with
  | nil => rfl
  | cons kv rest ih =>
      obtain ⟨k, v⟩ := kv
      rw [dbSetLastCheck_cons]
      by_cases hkp : k = p
      · rw [if_pos hkp]
        have hkq : ¬ k = q := fun hh => hq (by rw [← hh]; exact hkp)
        rw [dbLookup_cons, if_neg hkq, dbLookup_cons, if_neg hkq]
        exact ih
      · rw [if_neg hkp]
        rw [dbLookup_cons, dbLookup_cons]
        by_cases hk : k = q
        · rw [if_pos hk, if_pos hk]
        · rw [if_neg hk, if_neg hk]
          exact ih

/-- `dbSetLastCheck` rewrites values only: the key sequence is untouched. -/
theorem dbSetLastCheck_keys (db : DB) (p t : String) :
    (dbSetLastCheck db p t).map Prod.fst = db.map Prod.fst := by
  induction db with
  | nil => rfl
  | cons kv rest ih =>
      obtain ⟨k, v⟩ := kv
      rw [dbSetLastCheck_cons]
      by_cases hk : k = p
      · rw [if_pos hk]
        simp only [List.map_cons]
        rw [ih]
      · rw [if_neg hk]
        simp only [List.map_cons]
        rw [ih]

/-- State tracking a path `"m"` that is absent from every fixture
filesystem. -/
def missingState : SysState := { database := [("m", sampleRec)], disk := [("m", sampleRec)] }

/-- C5: for a tracked path whose file no longer exists, `check_file`
returns status `missing` (not `modified`, not `error`) carrying the
stored record's original hash, and leaves the whole state — in-memory
database and persisted store — untouched, so `last_check` is not
updated. -/
theorem check_file_missing_result (hashFn : String → List Nat → String) (env : Env)
    (s : SysState) (p : String) (stored : TrackedRecord)
    (hdb : dbLookup s.database p = some stored)
    (hfs : fsLookup env.fs p = none) :
    check_file hashFn env s p = (.missing "File is missing" stored.hash, s) := by
  simp [check_file, hdb, hfs]

/-- Witness for C5: evaluating the tracked-but-deleted path `"m"`. -/
theorem check_file_missing_result_witness :
    check_file sampleHash sampleEnv missingState "m" =
      (.missing "File is missing" sampleRec.hash, missingState) :=
  check_file_missing_result sampleHash sampleEnv missingState "m" sampleRec rfl rfl

/-- C6: for a tracked path whose file exists but whose digest
recomputation fails, `check_file` returns status `error` and performs no
mutation at all: the in-memory database and the persisted store are both
exactly as before. -/
theorem check_file_error_no_mutation (hashFn : String → List Nat → String) (env : Env)
    (s : SysState) (p : String) (stored : TrackedRecord) (fi : FileInfo)
    (hdb : dbLookup s.database p = some stored)
    (hfs : fsLookup env.fs p = some fi)
    (hcalc : calculate_hash hashFn env p stored.algorithm = none) :
    check_file hashFn env s p = (.error "Could not calculate current hash", s) := by
  simp [check_file, hdb, hfs, hcalc]

/-- Witness for C6: evaluating the tracked path `"b"` whose file exists
but cannot be read. -/
theorem check_file_error_no_mutation_witness :
    check_file sampleHash sampleEnv unreadableState "b" =
      (.error "Could not calculate current hash", unreadableState) :=
  check_file_error_no_mutation sampleHash sampleEnv unreadableState "b"
    unreadableRec unreadableFi rfl rfl (by decide)

/-- C7 counterexample: `_load_database` is not total and does not map
every malformed store to the empty database.  A store holding the single
byte `0xFF` (not decodable as text) raises out of the function — the
`except` clause catches only `JSONDecodeError` and `IOError`, not the
codec's `UnicodeDecodeError` — and a store holding the ASCII byte of
`"5"` (well-formed JSON that is not an object) loads as the number 5,
not as an empty database. -/
theorem load_database_can_raise :
    _load_database asciiDecode sampleParse (some [255]) = .error () ∧
    _load_database asciiDecode sampleParse (some [53]) = .ok (Json.num 5) ∧
    Json.num 5 ≠ Json.obj [] :=
  ⟨rfl, rfl, fun h => Json.noConfusion h⟩

/-- C7 (amended): `_load_database` returns the empty database when the
persisted file is absent, and when its content decodes as text but fails
JSON parsing (the caught `JSONDecodeError`); however content that fails
text decoding raises an uncaught error out of the function, and a
well-formed document is returned exactly as parsed, whatever its shape. -/
theorem load_database_failure_modes (utf8Decode : List Nat → Option String)
    (parseJson : String → Option Json) (disk : Option (List Nat)) :
    (disk = none → _load_database utf8Decode parseJson disk = .ok (Json.obj [])) ∧
    (∀ bs text, disk = some bs → utf8Decode bs = some text → parseJson text = none →
       _load_database utf8Decode parseJson disk = .ok (Json.obj [])) ∧
    (∀ bs, disk = some bs → utf8Decode bs = none →
       _load_database utf8Decode parseJson disk = .error ()) ∧
    (∀ bs text j, disk = some bs → utf8Decode bs = some text → parseJson text = some j →
       _load_database utf8Decode parseJson disk = .ok j) := by
  refine ⟨?_, ?_, ?_, ?_⟩
  · intro h
    subst h
    rfl
  · intro bs text hd hu hp
    subst hd
    simp [_load_database, hu, hp]
  · intro bs hd hu
    subst hd
    simp [_load_database, hu]
  · intro bs text j hd hu hp
    subst hd
    simp [_load_database, hu, hp]

/-- Witness for the amended C7: an absent store loads as the empty
database, and a present store whose text fails JSON parsing does too. -/
theorem load_database_failure_modes_witness :
    _load_database asciiDecode sampleParse none = .ok (Json.obj []) ∧
    _load_database asciiDecode sampleParse (some [110]) = .ok (Json.obj []) :=
  ⟨(load_database_failure_modes asciiDecode sampleParse none).1 rfl,
   (load_database_failure_modes asciiDecode sampleParse (some [110])).2.1
     [110] "n" rfl (by decide) rfl⟩

/-- C9: whenever `add_file` returns `False` (target absent, or digest
computation failed), the state is completely unchanged: no record added
or altered, nothing persisted. -/
theorem add_file_false_no_mutation (hashFn : String → List Nat → String) (env : Env)
    (s : SysState) (p a : String)
    (h : (add_file hashFn env s p a).1 = false) :
    (add_file hashFn env s p a).2 = s := by
  cases hfs : fsLookup env.fs p with
  | none => simp [add_file, hfs]
  | some fi =>
      cases hcalc : calculate_hash hashFn env p a with
      | none => simp [add_file, hfs, hcalc]
      | some hsh => simp [add_file, hfs, hcalc] at h

/-- Witness for C9: registering a path that does not exist. -/
theorem add_file_false_no_mutation_witness :
    (add_file sampleHash sampleEnv emptyState "nofile" "sha256").2 = emptyState :=
  add_file_false_no_mutation sampleHash sampleEnv emptyState "nofile" "sha256" rfl

/-- C3 counterexample: `"sha384"` lies outside the spec's enumerated set
{md5, sha1, sha256, sha512}, yet on every platform (`sha384` is among
`hashlib.algorithms_guaranteed`, here the minimal conforming platform)
`calculate_hash` on a readable file succeeds with a digest instead of
failing with `None`: `hashlib.new` accepts all the algorithms the hash
library provides, not just the four the CLI enumerates. -/
theorem calculate_hash_beyond_enumerated :
    "sha384" ∉ enumeratedAlgorithms ∧
    calculate_hash_plat minimalHashLib sampleEnv "a" "sha384" =
      .ok (some (sampleHash "sha384" [104, 105])) :=
  ⟨by decide, rfl⟩

/-- Every fixed-digest guaranteed name is a guaranteed name. -/
theorem hashlibAlgorithms_subset_guaranteed :
    ∀ a, a ∈ hashlibAlgorithms → a ∈ hashlibGuaranteed := by decide

/-- C3 (amended), quantified over every platform `hashlib` — the accepted
names form a platform-dependent superset of the guaranteed set, and among
the guaranteed names exactly the `shake_` pair lacks a parameterless
`hexdigest()`: a name the platform does not accept (lowercased) makes
`calculate_hash` return the failure outcome `None`; each of the four
enumerated algorithms on an existing readable file yields a digest; and
an accepted variable-length name on a readable file raises an uncaught
`TypeError` out of `calculate_hash` instead of returning `None`. -/
theorem calculate_hash_failure_boundary (lib : HashLib) (env : Env) (p alg : String)
    (hguar : ∀ a, a ∈ hashlibGuaranteed → lib.accepted a = true)
    (hfix : ∀ a, a ∈ hashlibAlgorithms → lib.fixedDigest a = true) :
    (lib.accepted (strLower alg) = false →
       calculate_hash_plat lib env p alg = .ok none) ∧
    (∀ fi, alg ∈ enumeratedAlgorithms → fsLookup env.fs p = some fi → fi.readable = true →
       calculate_hash_plat lib env p alg = .ok (some (lib.fn (strLower alg) fi.content))) ∧
    (∀ fi, lib.accepted (strLower alg) = true → lib.fixedDigest (strLower alg) = false →
       fsLookup env.fs p = some fi → fi.readable = true →
       calculate_hash_plat lib env p alg = .error ()) := by
  refine ⟨?_, ?_, ?_⟩
  · intro h
    simp [calculate_hash_plat, h]
  · intro fi halg hfs hread
    have hlow : strLower alg ∈ hashlibAlgorithms := by
      simp [enumeratedAlgorithms] at halg
      rcases halg with rfl | rfl | rfl | rfl <;> decide
    have hacc : lib.accepted (strLower alg) = true :=
      hguar _ (hashlibAlgorithms_subset_guaranteed _ hlow)
    have hfd : lib.fixedDigest (strLower alg) = true := hfix _ hlow
    simp [calculate_hash_plat, hacc, hfs, hread, hfd]
  · intro fi hacc hfd hfs hread
    simp [calculate_hash_plat, hacc, hfs, hread, hfd]

/-- Witness for the amended C3 on the minimal conforming platform: a name
no platform is obliged to accept fails with `None`, an enumerated name
yields a digest, and `shake_128` on a readable file raises. -/
theorem calculate_hash_failure_boundary_witness :
    calculate_hash_plat minimalHashLib sampleEnv "a" "bogus" = .ok none ∧
    calculate_hash_plat minimalHashLib sampleEnv "a" "md5" =
      .ok (some (sampleHash "md5" [104, 105])) ∧
    calculate_hash_plat minimalHashLib sampleEnv "a" "shake_128" = .error () :=
  ⟨(calculate_hash_failure_boundary minimalHashLib sampleEnv "a" "bogus"
      (by decide) (by decide)).1 (by decide),
   (calculate_hash_failure_boundary minimalHashLib sampleEnv "a" "md5"
      (by decide) (by decide)).2.1 sampleFi (by decide) rfl rfl,
   (calculate_hash_failure_boundary minimalHashLib sampleEnv "a" "shake_128"
      (by decide) (by decide)).2.2 sampleFi (by decide) (by decide) rfl rfl⟩

/-- The same tracked file `"a"` after its two bytes were overwritten
(same size, later mtime). -/
def modFi : FileInfo := { content := [119, 111], size := 2, mtime := 200, readable := true }

/-- Environment observing the overwritten file. -/
def modEnv : Env := { fs := [("a", modFi)], now := "t2", saveFails := false }

/-- C4: evaluating a tracked existing readable file whose baseline digest
was taken from `orig` under the record's stored algorithm: when the
content is untouched the result is `unchanged` with the current digest
equal to the stored one; when the content differs (and the digests do
not collide) the result is `modified`, carrying the original digest, the
digest recomputed under the record's stored algorithm, that algorithm,
`size_change = currentSize - storedSize` and
`mtime_change = currentMtime - storedMtime`, with original ≠ current. -/
theorem check_file_change_detection (hashFn : String → List Nat → String) (env : Env)
    (s : SysState) (p : String) (stored : TrackedRecord) (fi : FileInfo)
    (orig : List Nat)
    (hdb : dbLookup s.database p = some stored)
    (hfs : fsLookup env.fs p = some fi)
    (halg : strLower stored.algorithm ∈ hashlibAlgorithms)
    (hread : fi.readable = true)
    (hbase : stored.hash = hashFn (strLower stored.algorithm) orig) :
    (fi.content = orig →
       (check_file hashFn env s p).1 =
         .unchanged "File integrity verified" stored.hash stored.algorithm) ∧
    (fi.content ≠ orig →
       hashFn (strLower stored.algorithm) fi.content ≠ hashFn (strLower stored.algorithm) orig →
       (check_file hashFn env s p).1 =
         .modified "File has been modified" stored.hash
           (hashFn (strLower stored.algorithm) fi.content) stored.algorithm
           (fi.size - stored.size) (fi.mtime - stored.mtime) ∧
       stored.hash ≠ hashFn (strLower stored.algorithm) fi.content) := by
  have hcalc : calculate_hash hashFn env p stored.algorithm =
      some (hashFn (strLower stored.algorithm) fi.content) := by
    simp [calculate_hash, halg, hfs, hread]
  constructor
  · intro hceq
    have hcur : hashFn (strLower stored.algorithm) fi.content = stored.hash := by
      rw [hbase, hceq]
    simp [check_file, hdb, hfs, hcalc, hcur]
  · intro hcne hhne
    have hne : ¬ hashFn (strLower stored.algorithm) fi.content = stored.hash := by
      rw [hbase]
      exact hhne
    refine ⟨?_, ?_⟩
    · simp [check_file, hdb, hfs, hcalc, hne]
    · rw [hbase]
      exact fun hh => hhne hh.symm

/-- Witness for C4: the untouched file evaluates `unchanged`, the
overwritten file evaluates `modified` with deltas 0 and 100. -/
theorem check_file_change_detection_witness :
    (check_file sampleHash sampleEnv sampleState "a").1 =
      .unchanged "File integrity verified" sampleRec.hash sampleRec.algorithm ∧
    (check_file sampleHash modEnv sampleState "a").1 =
      .modified "File has been modified" sampleRec.hash
        (sampleHash "sha256" [119, 111]) "sha256" 0 100 ∧
    sampleRec.hash ≠ sampleHash "sha256" [119, 111] :=
  ⟨(check_file_change_detection sampleHash sampleEnv sampleState "a" sampleRec sampleFi
      [104, 105] rfl rfl (by decide) rfl rfl).1 rfl,
   (check_file_change_detection sampleHash modEnv sampleState "a" sampleRec modFi
      [104, 105] rfl rfl (by decide) rfl rfl).2 (by decide) (by decide)⟩

/-- C10: when an evaluation of a tracked, existing file ends `unchanged`
or `modified`, the only in-memory mutation is rewriting that record's
`last_check` to the current time: the database equals the original with
exactly that one field of that one key rewritten, the evaluated record
keeps its `hash`, `algorithm`, `size`, `mtime` and `added_time`, and
every other path's record is untouched. -/
theorem check_file_unchanged_modified_frame (hashFn : String → List Nat → String)
    (env : Env) (s : SysState) (p : String)
    (h : (check_file hashFn env s p).1.status = "unchanged" ∨
         (check_file hashFn env s p).1.status = "modified") :
    (check_file hashFn env s p).2.database = dbSetLastCheck s.database p env.now ∧
    (∃ stored, dbLookup s.database p = some stored ∧
       dbLookup (check_file hashFn env s p).2.database p =
         some { stored with last_check := env.now }) ∧
    (∀ q, q ≠ p →
       dbLookup (check_file hashFn env s p).2.database q = dbLookup s.database q) := by
  cases hdb : dbLookup s.database p with
  | none =>
      simp [check_file, hdb, CheckResult.status] at h
  | some stored =>
      cases hfs : fsLookup env.fs p with
      | none =>
          simp [check_file, hdb, hfs, CheckResult.status] at h
      | some fi =>
          cases hcalc : calculate_hash hashFn env p stored.algorithm with
          | none =>
              simp [check_file, hdb, hfs, hcalc, CheckResult.status] at h
          | some current_hash =>
              have hst : (check_file hashFn env s p).2.database =
                  dbSetLastCheck s.database p env.now := by
                by_cases hc : current_hash = stored.hash
                · simp [check_file, hdb, hfs, hcalc, hc]
                · simp [check_file, hdb, hfs, hcalc, hc]
              refine ⟨hst, ⟨stored, rfl, ?_⟩, ?_⟩
              · rw [hst]
                exact dbLookup_setLastCheck_same s.database p env.now stored hdb
              · intro q hq
                rw [hst]
                exact dbLookup_setLastCheck_other s.database p q env.now hq

/-- Witness for C10: the `unchanged` evaluation of the tracked file
`"a"`. -/
theorem check_file_unchanged_modified_frame_witness :
    (check_file sampleHash sampleEnv sampleState "a").2.database =
      dbSetLastCheck sampleState.database "a" sampleEnv.now ∧
    (∃ stored, dbLookup sampleState.database "a" = some stored ∧
       dbLookup (check_file sampleHash sampleEnv sampleState "a").2.database "a" =
         some { stored with last_check := sampleEnv.now }) ∧
    (∀ q, q ≠ "a" →
       dbLookup (check_file sampleHash sampleEnv sampleState "a").2.database q =
         dbLookup sampleState.database q) :=
  check_file_unchanged_modified_frame sampleHash sampleEnv sampleState "a" (Or.inl rfl)

/-- C2: with a failing persistence layer, `add_file` and `check_file`
return the very outcome they return when persistence works, the
in-memory mutation stands (it is not rolled back), and the on-disk store
is simply left as it was; in particular a registration whose save failed
still reports `True`. -/
theorem persist_failure_invisible (hashFn : String → List Nat → String) (env : Env)
    (s : SysState) (p a : String)
    (hfail : env.saveFails = true) :
    ((add_file hashFn env s p a).1 =
        (add_file hashFn { env with saveFails := false } s p a).1 ∧
      (add_file hashFn env s p a).2.database =
        (add_file hashFn { env with saveFails := false } s p a).2.database ∧
      (add_file hashFn env s p a).2.disk = s.disk) ∧
    ((check_file hashFn env s p).1 =
        (check_file hashFn { env with saveFails := false } s p).1 ∧
      (check_file hashFn env s p).2.database =
        (check_file hashFn { env with saveFails := false } s p).2.database ∧
      (check_file hashFn env s p).2.disk = s.disk) ∧
    (∀ fi h, fsLookup env.fs p = some fi → calculate_hash hashFn env p a = some h →
       (add_file hashFn env s p a).1 = true) := by
  have hch : ∀ alg, calculate_hash hashFn { env with saveFails := false } p alg =
      calculate_hash hashFn env p alg := fun _ => rfl
  refine ⟨?_, ?_, ?_⟩
  · cases hfs : fsLookup env.fs p with
    | none => simp [add_file, hfs]
    | some fi =>
        cases hc : calculate_hash hashFn env p a with
        | none => simp [add_file, hfs, hc, hch]
        | some hsh => simp [add_file, hfs, hc, hch, hfail]
  · cases hdb : dbLookup s.database p with
    | none => simp [check_file, hdb]
    | some stored =>
        cases hfs : fsLookup env.fs p with
        | none => simp [check_file, hdb, hfs]
        | some fi =>
            cases hc : calculate_hash hashFn env p stored.algorithm with
            | none => simp [check_file, hdb, hfs, hc, hch]
            | some current_hash =>
                by_cases heq : current_hash = stored.hash
                · simp [check_file, hdb, hfs, hc, hch, heq, hfail]
                · simp [check_file, hdb, hfs, hc, hch, heq, hfail]
  · intro fi hsh hfs hc
    simp [add_file, hfs, hc]

/-- Witness for C2: registering the readable file `"a"` while the save
raises: the call reports success and the disk is untouched. -/
theorem persist_failure_invisible_witness :
    (add_file sampleHash failEnv emptyState "a" "sha256").1 = true ∧
    (add_file sampleHash failEnv emptyState "a" "sha256").2.disk = emptyState.disk :=
  ⟨(persist_failure_invisible sampleHash failEnv emptyState "a" "sha256" rfl).2.2 sampleFi
      (sampleHash "sha256" [104, 105]) rfl rfl,
   (persist_failure_invisible sampleHash failEnv emptyState "a" "sha256" rfl).1.2.2⟩

/-- Decoding undoes encoding on a single record object. -/
theorem decodeRecord_encodeRecord (r : TrackedRecord) :
    decodeRecord (encodeRecord r) = some r := by
  cases r
  rfl

/-- Unfolding `decodeDB` on a cons of the top-level object. -/
theorem decodeDB_obj_cons (k : String) (j : Json) (xs : List (String × Json)) :
    decodeDB (.obj ((k, j) :: xs)) =
      match decodeRecord j, decodeDB (.obj xs) with
      | some r, some rest => some ((k, r) :: rest)
      | _, _ => none := rfl

/-- C8: saving any database and loading the persisted document yields the
database back, field for field: `load (save D) = D`. -/
theorem save_load_roundtrip (db : DB) : decodeDB (encodeDB db) = some db := by
  induction db with
  | nil => rfl
  | cons kv rest ih =>
      obtain ⟨k, r⟩ := kv
      show decodeDB (.obj ((k, encodeRecord r) ::
        rest.map (fun kv => (kv.1, encodeRecord kv.2)))) = some ((k, r) :: rest)
      rw [decodeDB_obj_cons, decodeRecord_encodeRecord]
      show (match some r, decodeDB (encodeDB rest) with
        | some r, some tail => some ((k, r) :: tail)
        | _, _ => none) = some ((k, r) :: rest)
      rw [ih]

/-- C1 (bug exhibit): the report over a database tracking exactly one
path, whose file exists but cannot be read, evaluates that one path to
status `"error"` — but every summary counter stays `0`, because the
summary key is the plural `"errors"` while the status is the singular
`"error"`, so the tallying guard never matches.  The per-path mapping is
complete (one entry, for the tracked path), yet the summary counts sum
to `0`, not to `total_files = 1`. -/
theorem generate_report_error_uncounted :
    (generate_report sampleHash sampleEnv unreadableState).1.total_files = 1 ∧
    (generate_report sampleHash sampleEnv unreadableState).1.files.map Prod.fst = ["b"] ∧
    ((generate_report sampleHash sampleEnv unreadableState).1.files.map
        (fun kv => kv.2.status)) = ["error"] ∧
    (generate_report sampleHash sampleEnv unreadableState).1.unchanged +
        (generate_report sampleHash sampleEnv unreadableState).1.modified +
        (generate_report sampleHash sampleEnv unreadableState).1.missing +
        (generate_report sampleHash sampleEnv unreadableState).1.errors = 0 :=
  ⟨rfl, rfl, rfl, rfl⟩
